import Mathlib

/-!
Shallow Lean embedding of the git-machete platform-access layer
(`git_machete/platform.py` and `git_machete/gitlab.py`): the parsed-JSON
value model, the token-discovery chain, the authenticated request
executor with pagination / redirect repair / error classification, and
the GitLab provider client, together with theorems checking the
specification's claims against these definitions.
-/

set_option autoImplicit false

namespace GitMachete

/-- Parsed JSON values, as produced by Python's `json.loads`.
Numbers are modelled as integers (no claim involves fractional values). -/
inductive Json where
  | null
  | bool (b : Bool)
  | num (n : Int)
  | str (s : String)
  | arr (elems : List Json)
  | obj (fields : List (String × Json))

/-- Python truthiness of a parsed-JSON value (`if x:`). -/
def Json.truthy : Json → Bool
  | .null => false
  | .bool b => b
  | .num n => n != 0
  | .str s => s != ""
  | .arr es => !es.isEmpty
  | .obj fs => !fs.isEmpty

/-- Dictionary lookup on the field list of a JSON object (first binding wins,
as in a Python dict built by `json.loads`, whose keys are unique). -/
def jsonLookup : List (String × Json) → String → Option Json
  | [], _ => none
  | (k, v) :: rest, key => if k = key then some v else jsonLookup rest key

/-- Python `+` on parsed-JSON values: list/str concatenation and numeric
addition succeed (bools count as ints); every other combination is a
`TypeError`, modelled as `none`. -/
def pyAdd : Json → Json → Option Json
  | .arr a, .arr b => some (.arr (a ++ b))
  | .str a, .str b => some (.str (a ++ b))
  | .num a, .num b => some (.num (a + b))
  | .num a, .bool b => some (.num (a + (if b then 1 else 0)))
  | .bool a, .num b => some (.num ((if a then 1 else 0) + b))
  | .bool a, .bool b => some (.num ((if a then 1 else 0) + (if b then 1 else 0)))
  | _, _ => none

/-- A single-quote character, for Python `repr` output. -/
def squote : String := String.singleton (Char.ofNat 39)

/-- Join with `", "`, as in Python container reprs. -/
def pyReprListJoin : List String → String
  | [] => ""
  | [s] => s
  | s :: rest => s ++ ", " ++ pyReprListJoin rest

mutual

/-- Python `repr` of a parsed-JSON value (as used inside `str` of a
container). Strings are wrapped in quotes following Python's rule:
single quotes unless the string contains one and no double quote. -/
def pyRepr : Json → String
  | .null => "None"
  | .bool b => if b then "True" else "False"
  | .num n => toString n
  | .str s =>
    if s.data.any (fun c => c = Char.ofNat 39) && !(s.data.any (fun c => c = Char.ofNat 34)) then
      "\"" ++ s ++ "\""
    else
      squote ++ s ++ squote
  | .arr es => "[" ++ pyReprListJoin (pyReprList es) ++ "]"
  | .obj fs => "\x7b" ++ pyReprListJoin (pyReprFields fs) ++ "\x7d"

/-- `repr` of each element of a JSON array. -/
def pyReprList : List Json → List String
  | [] => []
  | e :: es => pyRepr e :: pyReprList es

/-- `repr` of each `key: value` binding of a JSON object. -/
def pyReprFields : List (String × Json) → List String
  | [] => []
  | (k, v) :: fs => (pyRepr (.str k) ++ ": " ++ pyRepr v) :: pyReprFields fs

end

/-- Python `str` of a parsed-JSON value: a string is rendered without
quotes, everything else as its `repr`. -/
def pyStr : Json → String
  | .str s => s
  | j => pyRepr j

/-- Python `"\n".join`. -/
def pyJoinNewline : List String → String
  | [] => ""
  | [s] => s
  | s :: rest => s ++ "\n" ++ pyJoinNewline rest

/-! ### Character-list utilities modelling Python string operations -/

/-- Strip a literal pattern off the front of a character list:
`some rest` when the list starts with the pattern, else `none`. -/
def dropPre : List Char → List Char → Option (List Char)
  | [], cs => some cs
  | _ :: _, [] => none
  | p :: ps, c :: cs => if c = p then dropPre ps cs else none

/-- The longest run of characters satisfying `p`, with the remainder. -/
def spanB (p : Char → Bool) : List Char → List Char × List Char
  | [] => ([], [])
  | c :: cs =>
    if p c then
      let r := spanB p cs
      (c :: r.1, r.2)
    else ([], c :: cs)

/-- Split on a separator character, Python `str.split(sep)` semantics for a
one-character separator: `splitOnChar sep [] = [[]]`, adjacent separators
produce empty fields. -/
def splitOnChar (sep : Char) : List Char → List (List Char)
  | [] => [[]]
  | c :: cs =>
    if c = sep then [] :: splitOnChar sep cs
    else
      match splitOnChar sep cs with
      | [] => [[c]]
      | g :: gs => (c :: g) :: gs

/-- The whitespace characters stripped by Python `str.rstrip()`
(restricted to the ASCII whitespace set). -/
def pyIsSpace (c : Char) : Bool :=
  c = ' ' || c = '\t' || c = '\n' || c = '\r' || c = '\x0b' || c = '\x0c'

/-- Python `str.rstrip()`. -/
def pyRstrip (s : String) : String :=
  ((s.data.reverse.dropWhile pyIsSpace).reverse).asString

/-- Python `str.endswith(suf)`. -/
def pyEndsWith (s suf : String) : Bool :=
  (dropPre suf.data.reverse s.data.reverse).isSome

/-- Python `s.split(" ")[0]`; `split` on a non-empty separator always
returns at least one field, so the index never fails. -/
def pyFirstField (s : String) : String :=
  ((splitOnChar ' ' s.data).headD []).asString

/-- Python `str.split("/")`. -/
def pySplitSlash (s : String) : List String :=
  (splitOnChar '/' s.data).map List.asString

/-- ASCII uppercasing of one character, Python `str.upper` on the
character set these programs use. -/
def pyCharUpper (c : Char) : Char :=
  if 'a' ≤ c ∧ c ≤ 'z' then Char.ofNat (c.toNat - 32) else c

/-- Python `str.upper()`. -/
def pyUpper (s : String) : String :=
  (s.data.map pyCharUpper).asString

/-! ### Models of the regular-expression searches used by the source

Each scanner implements one fixed pattern of the source with Python `re`
semantics (leftmost match, greedy character classes). -/

/-- The literal `; rel="next"` that follows the URL in a pagination link
header entry. -/
def relNextLit : List Char := "; rel=\"next\"".data

/-- One attempt, at the current position, of the pattern
`<URL_PREFIX(/[^>]+)>; rel="next"` from
`PlatformClient.__fire_api_request`; returns the captured group. -/
def nextLinkAt (preCs : List Char) (cs : List Char) : Option (List Char) :=
  match cs with
  | '<' :: rest =>
    match dropPre preCs rest with
    | some r =>
      let pieces := spanB (fun ch => ch != '>') r
      if pieces.1.head? = some '/' ∧ 2 ≤ pieces.1.length then
        match pieces.2 with
        | '>' :: r4 => if (dropPre relNextLit r4).isSome then some pieces.1 else none
        | _ => none
      else none
    | none => none
  | _ => none

/-- Leftmost search for the pagination-link pattern. -/
def searchNextLinkAux (preCs : List Char) : List Char → Option (List Char)
  | [] => none
  | c :: cs =>
    match nextLinkAt preCs (c :: cs) with
    | some p => some p
    | none => searchNextLinkAux preCs cs

/-- `re.search(f'<{url_prefix_regex}(/[^>]+)>; rel="next"', link_header)`,
returning the captured next-page path. -/
def searchNextLink (pre header : String) : Option String :=
  (searchNextLinkAux pre.data header.data).map List.asString

/-- One attempt of the pattern `/repositories/([0-9]+)/` at the current
position. -/
def repoIdAt (cs : List Char) : Option (List Char) :=
  match dropPre ("/repositories/".data) cs with
  | none => none
  | some r =>
    let sp := spanB Char.isDigit r
    if sp.1 ≠ [] ∧ sp.2.head? = some '/' then some sp.1 else none

/-- Leftmost search for the repository-id pattern. -/
def searchRepoIdAux : List Char → Option (List Char)
  | [] => none
  | c :: cs =>
    match repoIdAt (c :: cs) with
    | some d => some d
    | none => searchRepoIdAux cs

/-- `re.search('/repositories/([0-9]+)/', location)`, returning the
captured numeric id. -/
def searchRepoId (s : String) : Option String :=
  (searchRepoIdAux s.data).map List.asString

/-- One step of `re.sub("https://[^/]+", "", location)`: at each position,
either delete a scheme+host match and continue after it, or keep the
character. The fuel equals the input length; every step consumes at least
one character, so the fuel is never exhausted on the wrapped input. -/
def subHttpsHostAux : Nat → List Char → List Char
  | 0, cs => cs
  | _ + 1, [] => []
  | fuel + 1, c :: cs =>
    match dropPre ("https://".data) (c :: cs) with
    | some r =>
      let sp := spanB (fun ch => ch != '/') r
      if sp.1 ≠ [] then subHttpsHostAux fuel sp.2
      else c :: subHttpsHostAux fuel cs
    | none => c :: subHttpsHostAux fuel cs

/-- `re.sub("https://[^/]+", "", location)`. -/
def subHttpsHost (s : String) : String :=
  (subHttpsHostAux s.data.length s.data).asString

/-- Numeric value of a run of decimal digits (Python `int(...)` on a
digits-only string). -/
def digitsToNat (ds : List Char) : Nat :=
  ds.foldl (fun acc c => acc * 10 + (c.toNat - 48)) 0

/-- Candidate splits of a maximal digit run for a greedy `\d+` that may
have to give characters back to the following pattern piece: longest
capture first, each paired with the remaining input. -/
def greedySplits (run rest : List Char) : List (List Char × List Char) :=
  (List.range run.length).reverse.map fun i => (run.take (i + 1), run.drop (i + 1) ++ rest)

/-- One attempt of `glab version (\d+).(\d+).(\d+)` (dots unescaped in the
source, hence matching any character except newline) at the current
position, with Python backtracking semantics. -/
def matchVersionAt (cs : List Char) : Option (Nat × Nat × Nat) :=
  match dropPre ("glab version ".data) cs with
  | none => none
  | some r =>
    let sp1 := spanB Char.isDigit r
    (greedySplits sp1.1 sp1.2).findSome? fun d1rem =>
      match d1rem.2 with
      | c1 :: rem2 =>
        if c1 = '\n' then none
        else
          let sp2 := spanB Char.isDigit rem2
          (greedySplits sp2.1 sp2.2).findSome? fun d2rem =>
            match d2rem.2 with
            | c2 :: rem4 =>
              if c2 = '\n' then none
              else
                let d3 := (spanB Char.isDigit rem4).1
                if d3 = [] then none
                else some (digitsToNat d1rem.1, digitsToNat d2rem.1, digitsToNat d3)
            | [] => none
      | [] => none

/-- Leftmost search for the `glab --version` output pattern. -/
def searchVersionAux : List Char → Option (Nat × Nat × Nat)
  | [] => none
  | c :: cs =>
    match matchVersionAt (c :: cs) with
    | some v => some v
    | none => searchVersionAux cs

/-- `re.search(r"glab version (\d+).(\d+).(\d+)", stdout)` followed by
`int` on the three captured groups. -/
def parseGlabVersion (s : String) : Option (Nat × Nat × Nat) :=
  searchVersionAux s.data

/-- A Python `\w` word character (restricted to the ASCII set these
programs use). -/
def isWordChar (c : Char) : Bool := c.isAlphanum || c = '_'

/-- One attempt of `Token: (\w+)` at the current position. -/
def tokenAt (cs : List Char) : Option (List Char) :=
  match dropPre ("Token: ".data) cs with
  | none => none
  | some r =>
    let run := (spanB isWordChar r).1
    if run = [] then none else some run

/-- Leftmost search for the `Token: <value>` pattern. -/
def searchTokenAux : List Char → Option (List Char)
  | [] => none
  | c :: cs =>
    match tokenAt (c :: cs) with
    | some t => some t
    | none => searchTokenAux cs

/-- `re.search(r"Token: (\w+)", stderr)`, returning the captured token. -/
def searchTokenWord (s : String) : Option String :=
  (searchTokenAux s.data).map List.asString

/-- Lexicographic comparison of version triples, Python tuple `<`. -/
def versionLt (a b : Nat × Nat × Nat) : Bool :=
  Nat.blt a.1 b.1 ||
    (a.1 == b.1 && (Nat.blt a.2.1 b.2.1 || (a.2.1 == b.2.1 && Nat.blt a.2.2 b.2.2)))

/-! ### Error taxonomy and HTTP model -/

/-- Exceptions that can escape the embedded code: the repository's own
exception classes (`MacheteException`, `UnexpectedMacheteException`,
`UnprocessableEntityHTTPError` from `exceptions.py`), Python built-in
exceptions escaping uncaught, and the fuel-exhaustion artifact of the
bounded embedding of the source's unbounded recursion. -/
inductive MacheteError where
  | machete (msg : String)
  | unexpectedMachete (msg : String)
  | unprocessableEntity (msg : String)
  | pyException (kind : String)
  | fuelOut

/-- Modelled from the spec: `utils.bold` (not under `src/`) renders text
emphasized for terminal output; modelled as a text-preserving wrapper. -/
def bold (s : String) : String := s

/-- An access token as the executor sees it: secret value plus
human-readable provider description (`AccessToken` protocol). -/
structure AccessTok where
  value : String
  provider : String

/-- What the HTTP transport returns for one request: a 2xx response
(parsed JSON body plus optional `Link` header), an HTTP error (code,
reason phrase, parsed error body, optional `Location` header), or a
transport-level `OSError`. -/
inductive HttpResult where
  | success (body : Json) (linkHeader : Option String)
  | httpError (code : Nat) (reason : String) (errorBody : Json) (location : Option String)
  | osError (msg : String)

/-- The state of a `PlatformClient`: its domain, resolved token, and the
external world (the HTTP server as a function of method, URL, request
body and authorization header; the org/repo-by-id side lookup used by
redirect repair). `possibleProviders` is the value of the token class's
`get_possible_providers` classmethod for the client's platform. -/
structure Client where
  domainValue : String
  urlPrefixFor : String → String
  token : Option AccessTok
  possibleProviders : String
  server : String → String → Option Json → Option String → HttpResult
  getOrgAndRepoNamesById : String → String

/-- The `Authorization` header value, present exactly when a token was
discovered (`headers['Authorization'] = 'Bearer ' + token.value`). -/
def authHeader (c : Client) : Option String :=
  c.token.map fun t => "Bearer " ++ t.value

/-- The request body actually serialized onto the wire:
`json.dumps(request_body) if request_body else None` — a falsy (empty)
dict sends no body. -/
def sentOf : Option Json → Option Json
  | some b => if b.truthy then some b else none
  | none => none

/-- The full URL of a request: `domain.url_prefix_for(path) + path`. -/
def pageUrl (c : Client) (path : String) : String :=
  c.urlPrefixFor path ++ path

/-! ### `PlatformClient.__extract_failure_info_from_422` -/

/-- The per-entry processing of the `for error in response['errors']`
loop: a dict entry contributes its truthy `message` (which must be a
string for the final `"\n".join` to succeed), or its own `str` form;
a non-dict entry makes `error.get` raise. -/
def collect422Errors : List Json → Except MacheteError (List String)
  | [] => .ok []
  | e :: es =>
    match e with
    | .obj fs =>
      match
        (match jsonLookup fs "message" with
         | some m =>
           if m.truthy then
             match m with
             | .str s => Except.ok s
             | _ => Except.error (MacheteError.pyException "TypeError")
           else Except.ok (pyStr e)
         | none => Except.ok (pyStr e)) with
      | .ok s =>
        match collect422Errors es with
        | .ok rest => .ok (s :: rest)
        | .error err => .error err
      | .error err => .error err
    | _ => .error (.pyException "AttributeError")

/-- Is this JSON value the Python string `'Validation Failed'`? (the
comparison `response['message'] != 'Validation Failed'`; any non-string
value is unequal). -/
def isValidationFailedStr : Json → Bool
  | .str s => s == "Validation Failed"
  | _ => false

/-- `PlatformClient.__extract_failure_info_from_422`. -/
def extractFailureInfoFrom422 (response : Json) : Except MacheteError String :=
  match response with
  | .obj fields =>
    match jsonLookup fields "message" with
    | none => .error (.pyException "KeyError")
    | some msg =>
      if !(isValidationFailedStr msg) then .ok (pyStr msg)
      else
        match jsonLookup fields "errors" with
        | some e =>
          if e.truthy then
            match e with
            | .arr entries =>
              match collect422Errors entries with
              | .ok ret =>
                if ret ≠ [] then .ok (pyJoinNewline ret) else .ok (pyStr response)
              | .error err => .error err
            | _ => .error (.pyException "TypeError")
          else .ok (pyStr response)
        | none => .ok (pyStr response)
  | _ => .error (.pyException "TypeError")

/-! ### `PlatformClient.__fire_api_request` -/

/-- `PlatformClient.__fire_api_request`, with explicit recursion fuel in
place of the source's unbounded recursion (pagination and redirect
repair). The result pairs the returned payload with the list of
non-fatal `warn` messages emitted, in emission order. -/
def fireApiRequest (c : Client) : Nat → String → String → Option Json → Except MacheteError (Json × List String)
  | 0, _, _, _ => .error .fuelOut
  | fuel + 1, method, path, requestBody =>
    match c.server (pyUpper method) (pageUrl c path) (sentOf requestBody) (authHeader c) with
    | .success body linkHeader =>
      match linkHeader with
      | some lh =>
        if lh ≠ "" then
          match searchNextLink (c.urlPrefixFor path) lh with
          | some nextPagePath =>
            match fireApiRequest c fuel method nextPagePath requestBody with
            | .ok (nextBody, ws) =>
              match pyAdd body nextBody with
              | some combined => .ok (combined, ws)
              | none => .error (.pyException "TypeError")
            | .error e => .error e
          | none => .ok (body, [])
        else .ok (body, [])
      | none => .ok (body, [])
    | .httpError code reason errorBody location =>
      if code = 422 then
        match extractFailureInfoFrom422 errorBody with
        | .ok errorReason => .error (.unprocessableEntity errorReason)
        | .error e => .error e
      else if code = 401 || code = 403 then
        match c.token with
        | some tok =>
          .error (.machete
            ("GitHub API returned `" ++ toString code ++ "` HTTP status with error message: `" ++
             reason ++ "`\n" ++
             "Make sure that the GitHub API token provided by the " ++ tok.provider ++
             " is valid and allows for access to `" ++ pyUpper method ++ "` `" ++
             c.urlPrefixFor path ++ path ++ "`.\n" ++
             "You can also use a different token provider, available providers can be found via `git machete help github`."))
        | none =>
          .error (.machete
            ("GitHub API returned `" ++ toString code ++ "` HTTP status with error message: `" ++
             reason ++ "`\n" ++
             "You might not have the required permissions for this repository.\n" ++
             "Provide a GitHub API token with `repo` access.\n" ++
             "Visit `https://" ++ c.domainValue ++ "/settings/tokens` to generate a new one.\n" ++
             "You can also use a different token provider, available providers can be found via `git machete help github`."))
      else if code = 404 then
        match c.token with
        | some _ =>
          .error (.machete
            ("`" ++ method ++ " " ++ pageUrl c path ++
             "` request ended up in 404 response from GitHub. A valid GitHub API token is required.\n" ++
             "Provide a GitHub API token with `repo` access via one of the: " ++
             c.possibleProviders ++
             " Visit `https://" ++ c.domainValue ++ "/settings/tokens` to generate a new one."))
        | none =>
          -- `self.__token.get_possible_providers()` with `self.__token is None`
          .error (.pyException "AttributeError")
      else if code = 307 then
        match location with
        | some loc =>
          match searchRepoId loc with
          | some repoId =>
            match fireApiRequest c fuel method (subHttpsHost loc) requestBody with
            | .ok (result, ws) =>
              match pySplitSlash (c.getOrgAndRepoNamesById repoId) with
              | newOrg :: newRepo :: _ =>
                .ok (result, ws ++
                  ["GitHub API returned `" ++ toString code ++ "` HTTP status with error message: `" ++
                   reason ++ "`.\n" ++
                   "It looks like the organization or repository name got changed recently and is outdated.\n" ++
                   "New organization is " ++ bold newOrg ++ " and new repository is " ++ bold newRepo ++ ".\n" ++
                   "You can update your remote repository via: `git remote set-url <remote_name> <new_repository_url>`."])
              | _ => .error (.pyException "IndexError")
            | .error e => .error e
          | none =>
            .error (.unexpectedMachete
              ("Could not extract organization and repository from Location header: `" ++ loc ++ "`."))
        | none =>
          .error (.unexpectedMachete
            ("GitHub API returned `" ++ toString code ++ "` HTTP status with error message: `" ++
             reason ++ "`.\n" ++
             "It looks like the organization or repository name got changed recently and is outdated.\n" ++
             "Update your remote repository manually via: `git remote set-url <remote_name> <new_repository_url>`."))
      else
        .error (.unexpectedMachete
          ("GitHub API returned `" ++ toString code ++ "` HTTP status with error message: `" ++
           reason ++ "`."))
    | .osError msg => .error (.machete ("Could not connect to " ++ c.urlPrefixFor path ++ ": " ++ msg))

/-! ### `find_access_token_for_domain` (platform.py) -/

/-- `find_access_token_for_domain(lines, domain)`: scan the token-file
lines top to bottom; a line (after `rstrip`) ending with
`" " + domain.value` yields its first space-separated field; for the
platform's default domain a line with no space yields itself; otherwise
continue; no match yields `none`. The domain is passed as its `value`
and its class-level `DEFAULT`. -/
def find_access_token_for_domain (lines : List String) (domainValue domainDEFAULT : String) : Option String :=
  match lines with
  | [] => none
  | l :: rest =>
    if pyEndsWith (pyRstrip l) (" " ++ domainValue) then
      some (pyFirstField (pyRstrip l))
    else if domainValue = domainDEFAULT ∧ ¬((pyRstrip l).data.any (fun ch => ch = ' ')) then
      some (pyRstrip l)
    else
      find_access_token_for_domain rest domainValue domainDEFAULT

/-! ### gitlab.py -/

/-- `GitLabDomain.DEFAULT`. -/
def gitLabDefaultDomain : String := "gitlab.com"

/-- `GitLabDomain.__init__`: `self.value = value or self.DEFAULT` (an
empty configured host also falls back to the default). -/
def gitLabDomainValue : Option String → String
  | some v => if v ≠ "" then v else gitLabDefaultDomain
  | none => gitLabDefaultDomain

/-- `GitLabDomain.url_prefix_for`. -/
def gitLabUrlPrefixFor (value : String) (path : String) : String :=
  "https://" ++ value ++ (if path = "/graphql" then "/api" else "/api/v4")

/-- `GITLAB_TOKEN_ENV_VAR`. -/
def GITLAB_TOKEN_ENV_VAR : String := "GITLAB_TOKEN"

/-- A `GitLabToken` (NamedTuple): secret value plus provider
description. -/
structure GitLabToken where
  value : String
  provider : String

/-- The environment the token-discovery chain reads: the
`GITLAB_TOKEN` environment variable, the `~/.gitlab-token` file
(`none` models `FileNotFoundError`, `some lines` the result of
`f.readlines()`), the `shutil.which('glab')` lookup, and the
`(returncode, stdout, stderr)` results of the two `glab` subprocess
invocations. -/
structure GitLabEnv where
  envToken : Option String
  tokenFile : Option (List String)
  whichGlab : Option String
  glabVersionResult : Int × String × String
  glabAuthStatusResult : Int × String × String

/-- `GitLabToken.__get_token_from_env`. -/
def getTokenFromEnv (env : GitLabEnv) : Option GitLabToken :=
  match env.envToken with
  | some t =>
    if t ≠ "" then some ⟨t, "`" ++ GITLAB_TOKEN_ENV_VAR ++ "` environment variable"⟩
    else none
  | none => none

/-- `GitLabToken.__get_token_from_file_in_home_directory`. -/
def getTokenFromFileInHomeDirectory (env : GitLabEnv) (domainValue : String) : Option GitLabToken :=
  match env.tokenFile with
  | none => none
  | some lines =>
    match find_access_token_for_domain lines domainValue gitLabDefaultDomain with
    | some token =>
      if token ≠ "" then
        some ⟨token, "auth token for " ++ domainValue ++ " from `~/.gitlab-token`"⟩
      else none
    | none => none

/-- `GitLabToken.__get_token_from_glab`. The second component of the
result records whether the `glab auth status` subcommand was invoked. -/
def getTokenFromGlab (env : GitLabEnv) (domainValue : String) :
    Except MacheteError (Option GitLabToken) × Bool :=
  match env.whichGlab with
  | none => (.ok none, false)
  | some _ =>
    if env.glabVersionResult.1 ≠ 0 then (.ok none, false)
    else
      match parseGlabVersion env.glabVersionResult.2.1 with
      | none =>
        (.error (.unexpectedMachete
          ("Could not parse output of `glab --version`: `" ++ env.glabVersionResult.2.1 ++ "`")), false)
      | some ver =>
        if versionLt ver (1, 14, 0) then (.ok none, false)
        else
          if env.glabAuthStatusResult.1 ≠ 0 then (.ok none, true)
          else
            match searchTokenWord env.glabAuthStatusResult.2.2 with
            | some tok =>
              (.ok (some ⟨tok, "auth token for " ++ domainValue ++ " from `glab` GitLab CLI"⟩), true)
            | none => (.ok none, true)

/-- `GitLabToken.for_domain`: environment, then file, then `glab`,
short-circuiting at the first success. -/
def gitLabTokenForDomain (env : GitLabEnv) (domainValue : String) :
    Except MacheteError (Option GitLabToken) :=
  match getTokenFromEnv env with
  | some t => .ok (some t)
  | none =>
    match getTokenFromFileInHomeDirectory env domainValue with
    | some t => .ok (some t)
    | none => (getTokenFromGlab env domainValue).1

/-- `GitLabToken.get_possible_providers`. -/
def gitLabGetPossibleProviders : String :=
  "\n\t1. `GITLAB_TOKEN` environment variable\n" ++
  "\t2. Content of the `~/.gitlab-token` file\n" ++
  "\t3. Current auth token from the `glab` GitLab CLI\n"

/-- A GitLab `Namespace` (NamedTuple). -/
structure Namespace where
  full_path : String

/-- A GitLab `Project` reference (NamedTuple). The source field
`namespace` is a Lean keyword, hence `namespc`. -/
structure Project where
  id : Option String
  path : Option String
  namespc : Option Namespace

/-- `Project.path_with_namespace`:
`f'{namespace.full_path}/{path}' if self.namespace and self.path else None`
(an empty `path` string is falsy; a `Namespace` NamedTuple is always
truthy). -/
def Project.path_with_namespace (p : Project) : Option String :=
  match p.namespc, p.path with
  | some ns, some pa => if pa ≠ "" then some (ns.full_path ++ "/" ++ pa) else none
  | _, _ => none

/-- One UTF-8 code unit sequence of a character, for `urllib.parse.quote`. -/
def utf8Bytes (c : Char) : List Nat :=
  let n := c.toNat
  if n < 128 then [n]
  else if n < 2048 then [192 + n / 64, 128 + n % 64]
  else if n < 65536 then [224 + n / 4096, 128 + (n / 64) % 64, 128 + n % 64]
  else [240 + n / 262144, 128 + (n / 4096) % 64, 128 + (n / 64) % 64, 128 + n % 64]

/-- An uppercase hexadecimal digit. -/
def hexDigit (n : Nat) : Char :=
  if n < 10 then Char.ofNat (48 + n) else Char.ofNat (55 + n)

/-- Is this byte in `urllib.parse.quote`'s always-safe set
(ASCII alphanumerics and `_.-~`)? -/
def quoteSafeByte (b : Nat) : Bool :=
  (48 ≤ b && b ≤ 57) || (65 ≤ b && b ≤ 90) || (97 ≤ b && b ≤ 122) ||
    b == 95 || b == 46 || b == 45 || b == 126

/-- `urllib.parse.quote(s, safe='')`: percent-encode every UTF-8 byte
outside the always-safe set. -/
def pyQuote (s : String) : String :=
  ((s.data.map utf8Bytes).flatten.map fun b =>
    if quoteSafeByte b then [Char.ofNat b]
    else ['%', hexDigit (b / 16), hexDigit (b % 16)]).flatten.asString

/-- The failure branch of `Project.uri_param`, shared by both entry
paths. -/
def Project.uriParamFromPath (p : Project) : Except MacheteError String :=
  match p.path_with_namespace with
  | some s => .ok (pyQuote s)
  | none =>
    .error (.unexpectedMachete
      "Cannot generate a URL param for a project without an ID or a path with namespace")

/-- `Project.uri_param`: a truthy `id` wins; otherwise the
percent-encoded namespaced path; otherwise an addressing error
(`UnexpectedMacheteException`). -/
def Project.uri_param (p : Project) : Except MacheteError String :=
  match p.id with
  | some i => if i ≠ "" then .ok i else p.uriParamFromPath
  | none => p.uriParamFromPath

/-- `GitLabClient.DEFAULT_HEADERS`. -/
def gitLabDefaultHeaders : List (String × String) :=
  [("Content-Type", "application/json"), ("User-Agent", "git-machete"), ("Accept", "application/json")]

/-- `GitLabClient.get_current_user_login`: `None` without any API call
when no token was discovered; otherwise `GET /user` and the `username`
field of the response. -/
def getCurrentUserLogin (c : Client) (fuel : Nat) : Except MacheteError (Option Json × List String) :=
  match c.token with
  | none => .ok (none, [])
  | some _ =>
    match fireApiRequest c fuel "GET" "/user" none with
    | .ok (body, ws) =>
      match body with
      | .obj fs =>
        match jsonLookup fs "username" with
        | some u => .ok (some u, ws)
        | none => .error (.pyException "KeyError")
      | _ => .error (.pyException "TypeError")
    | .error e => .error e

/-- `GitLabClient.create_merge_request`: refuse without a token, address
the project via `uri_param`, then POST the merge-request body. -/
def createMergeRequest (c : Client) (project : Project) (fuel : Nat)
    (head base title descr : String) (is_draft : Bool) :
    Except MacheteError (Json × List String) :=
  match c.token with
  | none => .error (.unexpectedMachete "Cannot create a merge request without a GitLab token")
  | some _ =>
    match project.uri_param with
    | .error e => .error e
    | .ok param =>
      fireApiRequest c fuel "POST" ("/projects/" ++ param ++ "/merge_requests")
        (some (.obj
          [("source_branch", .str head),
           ("target_branch", .str base),
           ("title", .str (if is_draft then "[Draft] " ++ title else title)),
           ("description", .str descr)]))

/-! ### Supporting lemmas -/

theorem asString_data (s : String) : s.data.asString = s := rfl

theorem dropPre_append (l r : List Char) : dropPre l (l ++ r) = some r := by
  induction l with
  | nil => rfl
  | cons c cs ih => simp [dropPre, ih]

theorem splitOnChar_no_sep (sep : Char) (cs : List Char) (h : ∀ c ∈ cs, ¬(c = sep)) :
    splitOnChar sep cs = [cs] := by
  induction cs with
  | nil => rfl
  | cons c cs ih =>
    have hc : ¬(c = sep) := h c (List.mem_cons_self c cs)
    rw [splitOnChar, if_neg hc, ih (fun x hx => h x (List.mem_cons_of_mem c hx))]

theorem pyFirstField_no_space (s : String) (h : ∀ c ∈ s.data, ¬(c = ' ')) :
    pyFirstField s = s := by
  rw [pyFirstField, splitOnChar_no_sep ' ' s.data h]
  rfl

/-! ### C3: token-file matching -/

/-- The matching rule exactly as the specification words it: a line
matches domain `D` when, after trimming trailing whitespace, it ends
with `" " + D.value`, or, when `D.value` is the platform's default
host, when it has no embedded space. -/
def claimLineMatches (domainValue domainDEFAULT : String) (l : String) : Bool :=
  pyEndsWith (pyRstrip l) (" " ++ domainValue) ||
    (decide (domainValue = domainDEFAULT) && !((pyRstrip l).data.any (fun ch => ch = ' ')))

/-- The specification's reading of the scan: the first matching line in
file order, reduced to its first space-separated field. -/
def claimFindAccessToken (lines : List String) (domainValue domainDEFAULT : String) : Option String :=
  (lines.find? (claimLineMatches domainValue domainDEFAULT)).map fun l =>
    pyFirstField (pyRstrip l)

/-- C3: `find_access_token_for_domain` scans top to bottom and returns
the first space-separated field of the first line that, after trimming
trailing whitespace, ends with `" " + domain.value` (a bare line also
matching for the default domain); the first match in file order wins and
no match yields no token; and for the file `tokA\ntokB git.example.com`
and domain `git.example.com` the result is `tokB`. -/
theorem C3_file_token_matching :
    (∀ (lines : List String) (dv dd : String),
      find_access_token_for_domain lines dv dd = claimFindAccessToken lines dv dd) ∧
    find_access_token_for_domain ["tokA", "tokB git.example.com"] "git.example.com" "gitlab.com" =
      some "tokB" := by
  constructor
  · intro lines dv dd
    induction lines with
    | nil => rfl
    | cons l rest ih =>
      by_cases h1 : pyEndsWith (pyRstrip l) (" " ++ dv) = true
      · have hm : claimLineMatches dv dd l = true := by
          rw [claimLineMatches, h1]
          rfl
        rw [find_access_token_for_domain, if_pos h1, claimFindAccessToken,
          List.find?_cons_of_pos _ hm]
        rfl
      · have h1' : pyEndsWith (pyRstrip l) (" " ++ dv) = false := by
          simpa using h1
        by_cases h2 : dv = dd ∧ ¬((pyRstrip l).data.any (fun ch => ch = ' ') = true)
        · have hm : claimLineMatches dv dd l = true := by
            rw [claimLineMatches, h1']
            simp [h2.1, h2.2]
          rw [find_access_token_for_domain, if_neg h1,
            if_pos (show dv = dd ∧ ¬((pyRstrip l).data.any (fun ch => ch = ' ')) from h2),
            claimFindAccessToken, List.find?_cons_of_pos _ hm]
          have hns : ∀ c ∈ (pyRstrip l).data, ¬(c = ' ') := by
            intro c hc hceq
            exact h2.2 (List.any_eq_true.mpr ⟨c, hc, by simp [hceq]⟩)
          simp [pyFirstField_no_space _ hns]
        · have hm : ¬(claimLineMatches dv dd l = true) := by
            rw [claimLineMatches, h1']
            by_cases hd : dv = dd
            · have : (pyRstrip l).data.any (fun ch => ch = ' ') = true := by
                by_contra hx
                exact h2 ⟨hd, hx⟩
              simp [this]
            · simp [hd]
          rw [find_access_token_for_domain, if_neg h1, if_neg h2, ih]
          unfold claimFindAccessToken
          rw [List.find?_cons_of_neg _ hm]
  · decide

/-! ### C2: discovery priority -/

/-- C2: `GitLabToken.for_domain` tries the environment variable, then
the token file, then the `glab` CLI, short-circuiting at the first
success: a non-empty `GITLAB_TOKEN` wins regardless of the file, an
absent environment yields the file token when one exists, and `glab` is
consulted only when both environment and file yield nothing. -/
theorem C2_token_priority (env : GitLabEnv) (d : String) :
    (∀ t, env.envToken = some t → t ≠ "" →
      gitLabTokenForDomain env d =
        .ok (some ⟨t, "`" ++ GITLAB_TOKEN_ENV_VAR ++ "` environment variable"⟩)) ∧
    (env.envToken = none →
      ∀ tok, getTokenFromFileInHomeDirectory env d = some tok →
        gitLabTokenForDomain env d = .ok (some tok)) ∧
    (getTokenFromEnv env = none → getTokenFromFileInHomeDirectory env d = none →
      gitLabTokenForDomain env d = (getTokenFromGlab env d).1) := by
  refine ⟨?_, ?_, ?_⟩
  · intro t ht htne
    rw [gitLabTokenForDomain, getTokenFromEnv, ht]
    simp [htne]
  · intro henv tok hfile
    rw [gitLabTokenForDomain, getTokenFromEnv, henv, hfile]
  · intro h1 h2
    rw [gitLabTokenForDomain, h1, h2]

/-! ### C8: glab version gating -/

/-- C8: when `glab` is found and `glab --version` exits 0 with output
parsing to a version triple strictly below `1.14.0`, the `glab` source
yields no token and `glab auth status` is never invoked (the second
component of `getTokenFromGlab` records that invocation). -/
theorem C8_version_gating (env : GitLabEnv) (d g out errv : String) (v : Nat × Nat × Nat)
    (hw : env.whichGlab = some g)
    (hv : env.glabVersionResult = (0, out, errv))
    (hp : parseGlabVersion out = some v)
    (hlt : versionLt v (1, 14, 0) = true) :
    getTokenFromGlab env d = (.ok none, false) := by
  rw [getTokenFromGlab, hw, hv]
  simp [hp, hlt]

/-! ### C9: addressing errors -/

/-- C9: a `Project` with no id and no derivable namespaced path makes
`uri_param` raise the addressing `UnexpectedMacheteException`, and
`create_merge_request` on such a project raises before any HTTP request
is fired (the result is an error for every possible server). -/
theorem C9_addressing_error (p : Project)
    (hid : p.id = none) (hpn : p.path = none ∨ p.namespc = none) :
    p.uri_param =
      .error (.unexpectedMachete
        "Cannot generate a URL param for a project without an ID or a path with namespace") ∧
    (∀ (c : Client) (fuel : Nat) (head base title descr : String) (is_draft : Bool),
      ∃ e, createMergeRequest c p fuel head base title descr is_draft = .error e) := by
  have hpwn : p.path_with_namespace = none := by
    rcases hpn with h | h <;> rw [Project.path_with_namespace]
    · rw [h]
      cases p.namespc <;> rfl
    · rw [h]
  have hparam : p.uri_param =
      .error (.unexpectedMachete
        "Cannot generate a URL param for a project without an ID or a path with namespace") := by
    rw [Project.uri_param, hid, Project.uriParamFromPath, hpwn]
  refine ⟨hparam, ?_⟩
  intro c fuel head base title descr is_draft
  rw [createMergeRequest]
  cases c.token with
  | none => exact ⟨_, rfl⟩
  | some tok =>
    rw [hparam]
    exact ⟨_, rfl⟩

/-! ### C10: current user without a token -/

/-- C10: when token discovery yielded no token,
`GitLabClient.get_current_user_login` returns `None` without firing any
API request (the result is the same for every server) and without
raising. -/
theorem C10_no_token_current_user (c : Client) (fuel : Nat) (h : c.token = none) :
    getCurrentUserLogin c fuel = .ok (none, []) := by
  rw [getCurrentUserLogin, h]

/-! ### C7: token discovery and raised errors -/

/-- A discovery environment in which `glab` is installed and
`glab --version` exits 0 with unparsable output. -/
def badGlabEnv : GitLabEnv :=
  { envToken := none
    tokenFile := none
    whichGlab := some "/usr/local/bin/glab"
    glabVersionResult := (0, "garbage", "")
    glabAuthStatusResult := (0, "", "") }

/-- C7 counterexample: token discovery does not always fall through
silently — with `glab` present and `glab --version` output that the
version pattern does not match, `GitLabToken.for_domain` raises an
`UnexpectedMacheteException` instead of returning a result. -/
theorem C7_counterexample :
    ¬(∃ r, gitLabTokenForDomain badGlabEnv "gitlab.com" = Except.ok r) := by
  intro h
  rcases h with ⟨r, hr⟩
  rw [show gitLabTokenForDomain badGlabEnv "gitlab.com" =
        .error (.unexpectedMachete "Could not parse output of `glab --version`: `garbage`")
      from rfl] at hr
  exact Except.noConfusion hr

/-- The glab source never raises as long as its version probe is absent,
failing, or parsable. -/
theorem getTokenFromGlab_no_raise (env : GitLabEnv) (d : String)
    (h : env.whichGlab = none ∨ env.glabVersionResult.1 ≠ 0 ∨
      ∃ v, parseGlabVersion env.glabVersionResult.2.1 = some v) :
    ∃ r, (getTokenFromGlab env d).1 = .ok r := by
  rw [getTokenFromGlab]
  cases hw : env.whichGlab with
  | none => exact ⟨none, rfl⟩
  | some g =>
    rcases h with h | h | ⟨v, hv⟩
    · rw [hw] at h
      exact Option.noConfusion h
    · simp only [if_pos h]
      exact ⟨none, rfl⟩
    · by_cases hrc : env.glabVersionResult.1 ≠ 0
      · simp only [if_pos hrc]
        exact ⟨none, rfl⟩
      · simp only [if_neg hrc, hv]
        by_cases hlt : versionLt v (1, 14, 0) = true
        · simp only [if_pos hlt]
          exact ⟨none, rfl⟩
        · simp only [if_neg hlt]
          by_cases hauth : env.glabAuthStatusResult.1 ≠ 0
          · simp only [if_pos hauth]
            exact ⟨none, rfl⟩
          · simp only [if_neg hauth]
            cases searchTokenWord env.glabAuthStatusResult.2.2 with
            | some tok => exact ⟨some ⟨tok, "auth token for " ++ d ++ " from `glab` GitLab CLI"⟩, rfl⟩
            | none => exact ⟨none, rfl⟩

/-- C7 amended: token discovery never raises — each source either yields
a token or silently falls through, and exhaustion of all three sources
returns no token rather than an error — except when the `glab` binary is
present, `glab --version` exits 0, and its output does not parse as a
version triple, in which case an `UnexpectedMacheteException` is
raised. -/
theorem C7_no_raise_amended (env : GitLabEnv) (d : String)
    (h : env.whichGlab = none ∨ env.glabVersionResult.1 ≠ 0 ∨
      ∃ v, parseGlabVersion env.glabVersionResult.2.1 = some v) :
    ∃ r : Option GitLabToken, gitLabTokenForDomain env d = .ok r := by
  rw [gitLabTokenForDomain]
  cases h1 : getTokenFromEnv env with
  | some t => exact ⟨some t, rfl⟩
  | none =>
    cases h2 : getTokenFromFileInHomeDirectory env d with
    | some t => exact ⟨some t, rfl⟩
    | none => exact getTokenFromGlab_no_raise env d h

/-! ### C4: 422 message building -/

/-- C4: a 422 response whose body is
`{"message": "Validation Failed", "errors": [{"message": A}, {"message": B}]}`
raises `UnprocessableEntityHTTPError` carrying exactly `A ++ "\n" ++ B`,
and a 422 response whose top-level message is any other string raises
with exactly that message. -/
theorem C4_422_message (c : Client) (m p : String) (b : Option Json) (fuel : Nat)
    (reason : String) (loc : Option String) :
    (∀ a bm : String, a ≠ "" → bm ≠ "" →
      c.server (pyUpper m) (pageUrl c p) (sentOf b) (authHeader c) =
        .httpError 422 reason
          (.obj [("message", .str "Validation Failed"),
                 ("errors", .arr [.obj [("message", .str a)], .obj [("message", .str bm)]])])
          loc →
      fireApiRequest c (fuel + 1) m p b = .error (.unprocessableEntity (a ++ "\n" ++ bm))) ∧
    (∀ msg : String, msg ≠ "Validation Failed" →
      c.server (pyUpper m) (pageUrl c p) (sentOf b) (authHeader c) =
        .httpError 422 reason (.obj [("message", .str msg)]) loc →
      fireApiRequest c (fuel + 1) m p b = .error (.unprocessableEntity msg)) := by
  constructor
  · intro a bm ha hb hserver
    rw [fireApiRequest, hserver]
    simp only [if_pos rfl]
    rw [extractFailureInfoFrom422]
    simp only [jsonLookup, if_pos rfl, if_neg (by simp : ¬("errors" = "message")),
      isValidationFailedStr]
    simp [collect422Errors, jsonLookup, Json.truthy, ha, hb, pyJoinNewline]
  · intro msg hmsg hserver
    rw [fireApiRequest, hserver]
    simp only [if_pos rfl]
    rw [extractFailureInfoFrom422]
    simp only [jsonLookup, if_pos rfl, isValidationFailedStr]
    simp [hmsg, pyStr]

/-! ### C6: 404 handling -/

/-- C6 (code behavior): on a 404 response, with a discovered token the
executor raises the not-found `MacheteException` enumerating the token
providers; with no token, the source evaluates
`self.__token.get_possible_providers()` on `None` and the request raises
a Python `AttributeError` instead of the claimed not-found error. -/
theorem C6_404_behavior (c : Client) (m p : String) (b : Option Json) (fuel : Nat)
    (reason : String) (errBody : Json) (loc : Option String)
    (hserver : c.server (pyUpper m) (pageUrl c p) (sentOf b) (authHeader c) =
      .httpError 404 reason errBody loc) :
    (c.token = none →
      fireApiRequest c (fuel + 1) m p b = .error (.pyException "AttributeError")) ∧
    (∀ tok, c.token = some tok →
      fireApiRequest c (fuel + 1) m p b =
        .error (.machete
          ("`" ++ m ++ " " ++ pageUrl c p ++
           "` request ended up in 404 response from GitHub. A valid GitHub API token is required.\n" ++
           "Provide a GitHub API token with `repo` access via one of the: " ++
           c.possibleProviders ++
           " Visit `https://" ++ c.domainValue ++ "/settings/tokens` to generate a new one."))) := by
  constructor
  · intro htok
    rw [fireApiRequest, hserver]
    simp only [if_neg (by decide : ¬((404 : Nat) = 422)),
      if_neg (by decide : ¬((decide ((404 : Nat) = 401) || decide ((404 : Nat) = 403)) = true)),
      if_pos rfl, htok]
    simp
  · intro tok htok
    rw [fireApiRequest, hserver]
    simp only [if_neg (by decide : ¬((404 : Nat) = 422)),
      if_neg (by decide : ¬((decide ((404 : Nat) = 401) || decide ((404 : Nat) = 403)) = true)),
      if_pos rfl, htok]
    simp

/-! ### C5: 307 redirect repair -/

/-- C5: a 307 response whose `Location` matches the
`/repositories/<digits>/` pattern makes the executor re-issue the
original request — same method, same body — against the path obtained by
stripping scheme+host from `Location`, and on success of that retry it
returns the retried call's payload together with one non-fatal rename
warning; a `Location` in which the pattern is absent raises an
`UnexpectedMacheteException` instead. -/
theorem C5_redirect_repair (c : Client) (m p : String) (b : Option Json) (fuel : Nat)
    (reason : String) (errBody : Json) :
    (∀ (loc rid : String) (body : Json),
      c.server (pyUpper m) (pageUrl c p) (sentOf b) (authHeader c) =
        .httpError 307 reason errBody (some loc) →
      searchRepoId loc = some rid →
      c.server (pyUpper m) (pageUrl c (subHttpsHost loc)) (sentOf b) (authHeader c) =
        .success body none →
      (∃ org repo tl, pySplitSlash (c.getOrgAndRepoNamesById rid) = org :: repo :: tl) →
      ∃ w, fireApiRequest c (fuel + 2) m p b = .ok (body, [w])) ∧
    (∀ loc : String,
      c.server (pyUpper m) (pageUrl c p) (sentOf b) (authHeader c) =
        .httpError 307 reason errBody (some loc) →
      searchRepoId loc = none →
      fireApiRequest c (fuel + 1) m p b =
        .error (.unexpectedMachete
          ("Could not extract organization and repository from Location header: `" ++ loc ++ "`."))) := by
  constructor
  · intro loc rid body hserver hrid hretry hsplit
    rcases hsplit with ⟨org, repo, tl, hs⟩
    have hinner : fireApiRequest c (fuel + 1) m (subHttpsHost loc) b = .ok (body, []) := by
      rw [fireApiRequest, hretry]
    rw [show fuel + 2 = (fuel + 1) + 1 from rfl, fireApiRequest, hserver]
    simp only [if_neg (by decide : ¬((307 : Nat) = 422)),
      if_neg (by decide : ¬((decide ((307 : Nat) = 401) || decide ((307 : Nat) = 403)) = true)),
      if_neg (by decide : ¬((307 : Nat) = 404)), if_pos rfl]
    rw [hrid, hinner, if_pos trivial]
    dsimp only
    rw [hs]
    exact ⟨_, by dsimp only; rw [List.nil_append]⟩
  · intro loc hserver hrid
    rw [fireApiRequest, hserver]
    simp only [if_neg (by decide : ¬((307 : Nat) = 422)),
      if_neg (by decide : ¬((decide ((307 : Nat) = 401) || decide ((307 : Nat) = 403)) = true)),
      if_neg (by decide : ¬((307 : Nat) = 404)), if_pos rfl]
    rw [hrid, if_pos trivial]

/-! ### C1: pagination -/

/-- One page of a paginated resource as the server presents it: the path
it is served under, its array-shaped payload, and whatever further
content follows the `next` entry in its `Link` header. -/
structure PageResp where
  path : String
  payload : List Json
  linkRest : String

/-- A `Link` header value containing a `<url>; rel="next"` entry whose
URL starts with the domain's url prefix, possibly followed by further
header content (other entries). -/
def canonicalNextHeader (pre nextPath restStr : String) : String :=
  "<" ++ pre ++ nextPath ++ ">; rel=\"next\"" ++ restStr

/-- The server serves the given chain of pages for one logical request:
every page is requested with the same method and request body, each
non-final page's `Link` header carries a `next` entry for the following
page's path, and the final page's `Link` header (if any) has no `next`
relation. -/
def servesPages (c : Client) (m : String) (b : Option Json) (lastLink : Option String) :
    List PageResp → Prop
  | [] => True
  | [pr] =>
    c.server (pyUpper m) (pageUrl c pr.path) (sentOf b) (authHeader c) =
      .success (.arr pr.payload) lastLink ∧
    (∀ h, lastLink = some h → searchNextLink (c.urlPrefixFor pr.path) h = none)
  | pr :: nxt :: rest =>
    nxt.path.data.head? = some '/' ∧
    2 ≤ nxt.path.data.length ∧
    (∀ ch ∈ nxt.path.data, ch ≠ '>') ∧
    c.server (pyUpper m) (pageUrl c pr.path) (sentOf b) (authHeader c) =
      .success (.arr pr.payload)
        (some (canonicalNextHeader (c.urlPrefixFor pr.path) nxt.path pr.linkRest)) ∧
    servesPages c m b lastLink (nxt :: rest)

theorem spanB_append (q : Char → Bool) (xs : List Char) (y : Char) (ys : List Char)
    (h : ∀ x ∈ xs, q x = true) (hy : q y = false) :
    spanB q (xs ++ y :: ys) = (xs, y :: ys) := by
  induction xs with
  | nil => simp [spanB, hy]
  | cons x xs ih =>
    have hx : q x = true := h x (List.mem_cons_self x xs)
    simp [spanB, hx, ih (fun z hz => h z (List.mem_cons_of_mem x hz))]

/-- The pagination-link extraction succeeds on a header that starts with
a well-formed `next` entry for the given prefix and path. -/
theorem searchNextLink_canonical (pre nextP rest : String)
    (h1 : nextP.data.head? = some '/') (h2 : 2 ≤ nextP.data.length)
    (h3 : ∀ ch ∈ nextP.data, ch ≠ '>') :
    searchNextLink pre (canonicalNextHeader pre nextP rest) = some nextP := by
  have hlit : (">; rel=\"next\"" : String).data = '>' :: relNextLit := rfl
  have hdata : (canonicalNextHeader pre nextP rest).data =
      '<' :: (pre.data ++ (nextP.data ++ ('>' :: (relNextLit ++ rest.data)))) := by
    rw [canonicalNextHeader]
    simp only [String.data_append, hlit]
    simp [List.append_assoc]
    rfl
  have hq : ∀ x ∈ nextP.data, (fun ch => ch != '>') x = true := by
    intro x hx
    simpa using h3 x hx
  have hspan : spanB (fun ch => ch != '>') (nextP.data ++ ('>' :: (relNextLit ++ rest.data))) =
      (nextP.data, '>' :: (relNextLit ++ rest.data)) :=
    spanB_append _ _ _ _ hq (by simp)
  rw [searchNextLink, hdata, searchNextLinkAux, nextLinkAt, dropPre_append]
  dsimp only
  rw [hspan, if_pos (⟨h1, h2⟩ : nextP.data.head? = some '/' ∧ 2 ≤ nextP.data.length)]
  simp [dropPre_append, asString_data]

/-- A canonical `Link` header is a non-empty string. -/
theorem canonicalNextHeader_ne_empty (pre nextP rest : String) :
    canonicalNextHeader pre nextP rest ≠ "" := by
  intro h
  have : (canonicalNextHeader pre nextP rest).data = [] := by rw [h]
  rw [canonicalNextHeader] at this
  simp [String.data_append] at this

/-- Pagination concatenates: on a served chain, the executor returns the
pages' payloads concatenated in order, with no warnings, for any
sufficient fuel. -/
theorem fire_paginates (c : Client) (m : String) (b : Option Json) (lastLink : Option String) :
    ∀ (rest : List PageResp) (pr : PageResp) (fuel : Nat),
      (pr :: rest).length ≤ fuel →
      servesPages c m b lastLink (pr :: rest) →
      fireApiRequest c fuel m pr.path b =
        .ok (.arr ((pr :: rest).map PageResp.payload).flatten, []) := by
  intro rest
  induction rest with
  | nil =>
    intro pr fuel hf hs
    cases fuel with
    | zero => simp at hf
    | succ f =>
      rcases hs with ⟨hserver, hlast⟩
      rw [fireApiRequest, hserver]
      cases lastLink with
      | none => simp
      | some h =>
        by_cases he : h = ""
        · simp [he]
        · have hn := hlast h rfl
          simp [hn, he]
  | cons nxt rest ih =>
    intro pr fuel hf hs
    cases fuel with
    | zero => simp at hf
    | succ f =>
      rcases hs with ⟨hhead, hlen, hgt, hserver, hrest⟩
      have hflen : (nxt :: rest).length ≤ f := by
        simpa [Nat.succ_le_succ_iff] using hf
      have hne : canonicalNextHeader (c.urlPrefixFor pr.path) nxt.path pr.linkRest ≠ "" :=
        canonicalNextHeader_ne_empty _ _ _
      have hsearch := searchNextLink_canonical (c.urlPrefixFor pr.path) nxt.path pr.linkRest
        hhead hlen hgt
      have hih := ih nxt f hflen hrest
      rw [fireApiRequest, hserver]
      simp [hne, hsearch, hih, pyAdd]

/-- C1: for every chain of N pages in which pages 1..N-1 each carry a
`Link` header containing a `<url>; rel="next"` entry whose URL starts
with the domain's url prefix and page N carries no `next` relation,
`__fire_api_request` returns the concatenation of the N array-shaped
payloads in order, page 1 first, with the same method and request body
used for every page; with no `next` link the parsed payload is returned
verbatim. -/
theorem C1_pagination_concatenates (c : Client) (m : String) (b : Option Json) :
    (∀ (pages : List PageResp) (pr : PageResp) (rest : List PageResp)
       (lastLink : Option String) (fuel : Nat),
      pages = pr :: rest → pages.length ≤ fuel →
      servesPages c m b lastLink pages →
      fireApiRequest c fuel m pr.path b =
        .ok (.arr (pages.map PageResp.payload).flatten, [])) ∧
    (∀ (p : String) (body : Json) (fuel : Nat),
      c.server (pyUpper m) (pageUrl c p) (sentOf b) (authHeader c) = .success body none →
      fireApiRequest c (fuel + 1) m p b = .ok (body, [])) := by
  constructor
  · intro pages pr rest lastLink fuel hp hf hs
    subst hp
    exact fire_paginates c m b lastLink rest pr fuel hf hs
  · intro p body fuel hserver
    rw [fireApiRequest, hserver]

/-! ### Concrete instances and witnesses -/

/-- First page of a two-page chain. -/
def pageOne : PageResp := ⟨"/items", [Json.num 1, Json.num 2], ""⟩

/-- Second and final page of a two-page chain. -/
def pageTwo : PageResp := ⟨"/items?page=2", [Json.num 3], ""⟩

/-- A client whose server serves the two-page chain. -/
def paginatingClient : Client :=
  { domainValue := "example.com"
    urlPrefixFor := fun _ => "https://example.com/api/v4"
    token := none
    possibleProviders := gitLabGetPossibleProviders
    server := fun _ url _ _ =>
      if url = "https://example.com/api/v4/items" then
        .success (.arr [.num 1, .num 2])
          (some "<https://example.com/api/v4/items?page=2>; rel=\"next\"")
      else if url = "https://example.com/api/v4/items?page=2" then
        .success (.arr [.num 3]) none
      else .osError "unreachable"
    getOrgAndRepoNamesById := fun _ => "" }

theorem C1_witness :
    fireApiRequest paginatingClient 2 "GET" "/items" none =
      .ok (.arr [Json.num 1, Json.num 2, Json.num 3], []) :=
  (C1_pagination_concatenates paginatingClient "GET" none).1
    [pageOne, pageTwo] pageOne [pageTwo] none 2 rfl (by decide)
    ⟨rfl, by decide, by decide, rfl, rfl, fun h hh => Option.noConfusion hh⟩

/-- A discovery environment with both an environment token and a
matching file token. -/
def envWithEverything : GitLabEnv :=
  { envToken := some "tok-env"
    tokenFile := some ["tok-file gitlab.example.com"]
    whichGlab := none
    glabVersionResult := (0, "", "")
    glabAuthStatusResult := (0, "", "") }

theorem C2_witness :
    gitLabTokenForDomain envWithEverything "gitlab.example.com" =
      .ok (some ⟨"tok-env", "`GITLAB_TOKEN` environment variable"⟩) :=
  (C2_token_priority envWithEverything "gitlab.example.com").1 "tok-env" rfl (by decide)

/-- A client whose server always answers 422 with a two-entry
`Validation Failed` body. -/
def unprocessableClient : Client :=
  { domainValue := "github.com"
    urlPrefixFor := fun _ => "https://api.github.com"
    token := none
    possibleProviders := gitLabGetPossibleProviders
    server := fun _ _ _ _ =>
      .httpError 422 "Unprocessable Entity"
        (.obj [("message", .str "Validation Failed"),
               ("errors", .arr [.obj [("message", .str "A")], .obj [("message", .str "B")]])])
        none
    getOrgAndRepoNamesById := fun _ => "" }

theorem C4_witness :
    fireApiRequest unprocessableClient 1 "POST" "/pulls" none =
      .error (.unprocessableEntity "A\nB") :=
  (C4_422_message unprocessableClient "POST" "/pulls" none 0 "Unprocessable Entity" none).1
    "A" "B" (by decide) (by decide) rfl

/-- A client whose server answers the original path with a 307 pointing
at a renumbered repository and the rewritten path with success. -/
def redirectedClient : Client :=
  { domainValue := "github.com"
    urlPrefixFor := fun _ => ""
    token := none
    possibleProviders := gitLabGetPossibleProviders
    server := fun _ url _ _ =>
      if url = "/orig/pulls" then
        .httpError 307 "Temporary Redirect" .null
          (some "https://api.github.com/repositories/42/pulls")
      else if url = "/repositories/42/pulls" then
        .success (.str "created") none
      else .osError "unreachable"
    getOrgAndRepoNamesById := fun _ => "neworg/newrepo" }

theorem C5_witness :
    ∃ w, fireApiRequest redirectedClient 2 "POST" "/orig/pulls" none =
      .ok (.str "created", [w]) :=
  (C5_redirect_repair redirectedClient "POST" "/orig/pulls" none 0 "Temporary Redirect" .null).1
    "https://api.github.com/repositories/42/pulls" "42" (.str "created")
    rfl rfl rfl ⟨"neworg", "newrepo", [], rfl⟩

/-- A client with no discovered token whose server always answers
404. -/
def tokenlessNotFoundClient : Client :=
  { domainValue := "github.com"
    urlPrefixFor := fun _ => "https://api.github.com"
    token := none
    possibleProviders := gitLabGetPossibleProviders
    server := fun _ _ _ _ => .httpError 404 "Not Found" .null none
    getOrgAndRepoNamesById := fun _ => "" }

theorem C6_witness :
    fireApiRequest tokenlessNotFoundClient 1 "GET" "/user" none =
      .error (.pyException "AttributeError") :=
  (C6_404_behavior tokenlessNotFoundClient "GET" "/user" none 0 "Not Found" .null none rfl).1 rfl

/-- A discovery environment in which every source is empty. -/
def emptyDiscoveryEnv : GitLabEnv :=
  { envToken := none
    tokenFile := none
    whichGlab := none
    glabVersionResult := (0, "", "")
    glabAuthStatusResult := (0, "", "") }

theorem C7_witness :
    ∃ r : Option GitLabToken, gitLabTokenForDomain emptyDiscoveryEnv "gitlab.com" = .ok r :=
  C7_no_raise_amended emptyDiscoveryEnv "gitlab.com" (Or.inl rfl)

/-- A discovery environment whose `glab` reports version 1.13.0. -/
def oldGlabEnv : GitLabEnv :=
  { envToken := none
    tokenFile := none
    whichGlab := some "/usr/local/bin/glab"
    glabVersionResult := (0, "glab version 1.13.0 (2099-12-31)", "")
    glabAuthStatusResult := (0, "", "Token: should_never_be_consulted") }

theorem C8_witness :
    getTokenFromGlab oldGlabEnv "gitlab.com" = (.ok none, false) :=
  C8_version_gating oldGlabEnv "gitlab.com" "/usr/local/bin/glab"
    "glab version 1.13.0 (2099-12-31)" "" (1, 13, 0) rfl rfl (by decide) (by decide)

/-- A project with a path but neither an id nor a namespace. -/
def unaddressableProject : Project := ⟨none, some "proj", none⟩

/-- A GitLab client with a resolved token whose server is never
reached. -/
def mergeRequestClient : Client :=
  { domainValue := gitLabDefaultDomain
    urlPrefixFor := gitLabUrlPrefixFor gitLabDefaultDomain
    token := some ⟨"tok", "`GITLAB_TOKEN` environment variable"⟩
    possibleProviders := gitLabGetPossibleProviders
    server := fun _ _ _ _ => .osError "unreachable"
    getOrgAndRepoNamesById := fun _ => "" }

theorem C9_witness :
    unaddressableProject.uri_param =
      .error (.unexpectedMachete
        "Cannot generate a URL param for a project without an ID or a path with namespace") ∧
    ∃ e, createMergeRequest mergeRequestClient unaddressableProject 1
      "feature" "main" "Title" "Descr" false = .error e :=
  ⟨(C9_addressing_error unaddressableProject rfl (Or.inr rfl)).1,
   (C9_addressing_error unaddressableProject rfl (Or.inr rfl)).2
     mergeRequestClient 1 "feature" "main" "Title" "Descr" false⟩

/-- A GitLab client for which token discovery yielded nothing. -/
def tokenlessClient : Client :=
  { domainValue := gitLabDefaultDomain
    urlPrefixFor := gitLabUrlPrefixFor gitLabDefaultDomain
    token := none
    possibleProviders := gitLabGetPossibleProviders
    server := fun _ _ _ _ => .osError "unreachable"
    getOrgAndRepoNamesById := fun _ => "" }

theorem C10_witness :
    getCurrentUserLogin tokenlessClient 5 = .ok (none, []) :=
  C10_no_token_current_user tokenlessClient 5 rfl

end GitMachete
